import Mathlib

/-!
Verification of the tradingBot repository: a shallow embedding in Lean 4 of
the Opening Range Breakout strategy (`src/src/strategy/opening_range_breakout.py`),
the risk manager (`src/src/risk/manager.py`) and the backtest engine
(`src/backtest/engine.py`), together with theorems settling the spec claims.

Modelling conventions:
* Python floats are modelled as exact rationals (`ℚ`).  The one place where
  IEEE special values matter to a claim (division by a zero opening-range low,
  which in numpy yields `inf`/`NaN` rather than raising) is modelled by
  `ieeeDivGe`, which reproduces the IEEE comparison result for a possibly-zero
  denominator.  Elsewhere, `ℚ` division by zero (which yields 0 in Lean) is
  only ever reached behind the same guards the Python code uses, except where
  a doc comment notes otherwise.
* Python `dict[str, α]` is modelled as an association list with
  insert-overwrites / delete semantics.
* Wall-clock datetimes are modelled as a calendar date (`ℕ`, days since an
  epoch Monday, so `weekday = date % 7` with Monday = 0) plus a time of day in
  microseconds (`ℕ`, the resolution of Python `datetime.time`).
-/

set_option linter.unusedVariables false

namespace TradingBot

/-! ## Rational-list helpers (pandas/numpy aggregates) -/

/-- Binary maximum on `ℚ`, written out as its `if` definition so that it
evaluates by mere `Decidable` reduction (`qmax_eq_max` bridges to `max`). -/
def qmax (a b : ℚ) : ℚ := if a ≤ b then b else a

/-- Binary minimum on `ℚ` (`qmin_eq_min` bridges to `min`). -/
def qmin (a b : ℚ) : ℚ := if a ≤ b then a else b

/-- Absolute value on `ℚ`, written out as its `if` definition. -/
def qabs (a : ℚ) : ℚ := if a < 0 then -a else a

/-- Mean of a list of rationals; `pandas.Series.mean`.  For the empty list the
0 default stands in for pandas' `NaN`; every use below is guarded so the empty
case is not observable by any claim. -/
def meanQ (l : List ℚ) : ℚ := l.sum / l.length

/-- Maximum of a list of rationals; `pandas.Series.max` over a nonempty
series.  The head is used as the fold seed, so the default value for the
empty list is 0, again unobservable behind the callers' nonemptiness guards. -/
def maxQ (l : List ℚ) : ℚ := l.foldl qmax (l.headD 0)

/-- Minimum of a list of rationals; `pandas.Series.min` over a nonempty
series. -/
def minQ (l : List ℚ) : ℚ := l.foldl qmin (l.headD 0)

/-- Sample variance (`ddof = 1`, pandas `Series.std` squared); 0 when fewer
than two observations (pandas yields `NaN` there, and the only consumer tests
`std > 0`, which is false for `NaN` exactly as it is for our 0). -/
def svarQ (l : List ℚ) : ℚ :=
  if l.length ≤ 1 then 0
  else (l.map (fun x => (x - meanQ l) ^ 2)).sum / ((l.length : ℚ) - 1)

/-- Consecutive percentage changes of a series, `pandas.Series.pct_change`
with the leading `NaN` dropped (pandas' `mean`/`std` skip it).  A zero
previous value would be a `NaN`/`inf` in pandas; in `ℚ` it yields 0 — only
reachable through a zero equity point, which no claim exercises. -/
def pctChanges : List ℚ → List ℚ
  | a :: b :: rest => (b - a) / a :: pctChanges (b :: rest)
  | _ => []

/-- Python `int(q)` on a float: truncation toward zero. -/
def pyTrunc (q : ℚ) : ℤ := if 0 ≤ q then ⌊q⌋ else ⌈q⌉

/-- The IEEE-754 result of `num / den ≥ thresh` for exact rational inputs:
a zero denominator yields `+∞` (when `num > 0`), `-∞` (when `num < 0`) or
`NaN` (when `num = 0`), none of which raises; comparisons against `NaN` are
false.  numpy float64 division behaves this way (no `ZeroDivisionError`).
Rounding of the finite quotient is ignored (inputs are treated as exact). -/
def ieeeDivGe (num den thresh : ℚ) : Bool :=
  if den = 0 then
    if 0 < num then true else false
  else
    decide (thresh ≤ num / den)

/-! ## Association lists for Python dicts keyed by symbol -/

/-- Source `d[k] = v` on a Python dict: overwrite-or-insert. -/
def alInsert {α : Type} (l : List (String × α)) (k : String) (v : α) :
    List (String × α) :=
  (k, v) :: l.filter (fun q => q.1 ≠ k)

/-- Source `del d[k]` on a Python dict. -/
def alErase {α : Type} (l : List (String × α)) (k : String) :
    List (String × α) :=
  l.filter (fun q => q.1 ≠ k)

/-! ## Phase state machine (`OpeningRangeBreakoutStrategy.get_trading_phase`) -/

/-- One microsecond-resolution day. -/
def dayUs : ℕ := 86400000000

/-- ET time 09:30 in microseconds of day (`MARKET_OPEN`). -/
def marketOpenUs : ℕ := 34200000000

/-- ET time 09:35 (`OR_CALC_START`). -/
def orCalcStartUs : ℕ := 34500000000

/-- ET time 09:45 (`OR_CALC_END`). -/
def orCalcEndUs : ℕ := 35100000000

/-- ET time 11:00 (`ENTRY_WINDOW_END`). -/
def entryWindowEndUs : ℕ := 39600000000

/-- ET time 15:55 (`FORCE_CLOSE_TIME`). -/
def forceCloseUs : ℕ := 57300000000

/-- ET time 16:00 (`MARKET_CLOSE`). -/
def marketCloseUs : ℕ := 57600000000

/-- The seven trading-day phases; the Python code uses the corresponding
string literals. -/
inductive TradingPhase where
  | pre_market
  | noise
  | calc_or
  | entry_window
  | manage_only
  | force_close
  | after_hours
deriving DecidableEq, Repr

/-- Source `OpeningRangeBreakoutStrategy.get_trading_phase`, as a pure function of
the time of day `t` in microseconds. -/
def get_trading_phase (t : ℕ) : TradingPhase :=
  if t < marketOpenUs then .pre_market
  else if t < orCalcStartUs then .noise
  else if t < orCalcEndUs then .calc_or
  else if t < entryWindowEndUs then .entry_window
  else if t < forceCloseUs then .manage_only
  else if t < marketCloseUs then .force_close
  else .after_hours

/-! ## Bars and the ET clock -/

/-- One OHLCV bar.  `ts` is the bar's (ET-converted) timestamp in absolute
microseconds (`date * dayUs + time-of-day`); `op` is the source's `open`
field (renamed: `open` is a Lean keyword). -/
structure Bar where
  ts : ℕ
  op : ℚ
  high : ℚ
  low : ℚ
  close : ℚ
  volume : ℚ
deriving DecidableEq, Repr, Inhabited

/-- An ET wall-clock instant: calendar date (days since an epoch Monday) and
time of day in microseconds.  Stands for `datetime.now(ET)`. -/
structure ETTime where
  date : ℕ
  tod : ℕ
deriving DecidableEq, Repr

/-- Source `df.iloc[-1]["close"] if not df.empty else 0` — the guarded last close
used by `_sell_signal` and `_hold_signal`. -/
def lastCloseD (df : List Bar) : ℚ :=
  match df.getLast? with
  | some b => b.close
  | none => 0

/-! ## Signals

`src/src/strategy/base.py` is not present in the tree (only its importers
are), so the `Signal`/`SignalType` carrier types are modelled from the spec:
"Signal: \x7bsymbol, type ∈ \x7bBUY,SELL,HOLD\x7d, strength ∈ [0,1], price,
timestamp, stop_loss?, take_profit?, metadata\x7d; ephemeral".  The only
metadata entry any claim inspects is `"reason"`, kept here as a field. -/

/-- Modelled from the spec: signal type, `SignalType` of the absent
`src/src/strategy/base.py` (BUY/SELL/HOLD). -/
inductive SignalType where
  | BUY
  | SELL
  | HOLD
deriving DecidableEq, Repr

/-- Modelled from the spec: the `Signal` dataclass of the absent
`src/src/strategy/base.py`; `reason` is the `metadata["reason"]` entry. -/
structure Signal where
  symbol : String
  signal_type : SignalType
  strength : ℚ
  price : ℚ
  timestamp : ETTime
  stop_loss : Option ℚ := none
  take_profit : Option ℚ := none
  reason : Option String := none
deriving DecidableEq, Repr

/-! ## Opening Range Breakout strategy
(`src/src/strategy/opening_range_breakout.py`) -/

/-- The `OpeningRange` dataclass: per-symbol, per-day breakout band. -/
structure OpeningRange where
  symbol : String
  date : ℕ
  high : ℚ
  low : ℚ
  range : ℚ
  avg_volume : ℚ
  is_valid : Bool
deriving DecidableEq, Repr

/-- The `ORBPosition` dataclass. -/
structure ORBPosition where
  symbol : String
  entry_price : ℚ
  entry_time : ETTime
  shares : ℤ
  stop_loss : ℚ
  take_profit : ℚ
  or_high : ℚ
deriving DecidableEq, Repr

/-- Constructor parameters of `OpeningRangeBreakoutStrategy`.
`riskReward` is the source's `risk_reward_ratio`. -/
structure ORBParams where
  risk_pct : ℚ := 1 / 400
  daily_max_loss_pct : ℚ := 1 / 50
  volume_multiplier : ℚ := 3 / 2
  min_or_range_pct : ℚ := 1 / 500
  riskReward : ℚ := 2
  max_positions : ℕ := 1
  check_false_breakout : Bool := true
deriving DecidableEq, Repr

/-- Per-day mutable state of `OpeningRangeBreakoutStrategy`. -/
structure ORBState where
  opening_ranges : List (String × OpeningRange) := []
  positions : List (String × ORBPosition) := []
  daily_pnl : ℚ := 0
  daily_starting_equity : ℚ := 0
  last_reset_date : Option ℕ := none
  is_daily_stopped : Bool := false
deriving DecidableEq, Repr

/-- Source `reset_daily_state`: clears the OR cache, positions and realized P&L,
re-bases the day's starting equity, stamps the reset date and clears the
daily-stop flag. -/
def reset_daily_state (equity : ℚ) (now : ETTime) : ORBState :=
  { opening_ranges := []
    positions := []
    daily_pnl := 0
    daily_starting_equity := equity
    last_reset_date := some now.date
    is_daily_stopped := false }

/-- Source `calculate_opening_range` (pure core): given the symbol's 1-minute bars
(already ET-timestamped; the source's timezone conversion is the identity
here), the current date and the absolute-microsecond OR window bounds,
returns the `OpeningRange` or `none` when the frame is empty or fewer than
5 bars fall inside the window.  `is_valid` is the numpy float comparison
`or_range / or_low >= min_or_range_pct`, which does not raise at
`or_low = 0` (`ieeeDivGe`). -/
def calculate_opening_range (p : ORBParams) (symbol : String) (bars : List Bar)
    (today : ℕ) (orStart orEnd : ℕ) : Option OpeningRange :=
  if bars = [] then none
  else
    let or_bars := bars.filter (fun b => decide (orStart ≤ b.ts) && decide (b.ts < orEnd))
    if or_bars.length < 5 then none
    else
      let or_high := maxQ (or_bars.map (·.high))
      let or_low := minQ (or_bars.map (·.low))
      let or_range := or_high - or_low
      let avg_volume := meanQ ((bars.map (·.volume)).drop (bars.length - 20))
      some
        { symbol := symbol
          date := today
          high := or_high
          low := or_low
          range := or_range
          avg_volume := avg_volume
          is_valid := ieeeDivGe or_range or_low p.min_or_range_pct }

/-- Source `check_entry_signal`: breakout close above the OR high with volume
confirmation, only for a valid OR. -/
def check_entry_signal (p : ORBParams) (current_bar : Bar)
    (opening_range : OpeningRange) : Bool :=
  if !opening_range.is_valid then false
  else
    let breakout := decide (opening_range.high < current_bar.close)
    let volume_confirm :=
      decide (p.volume_multiplier * opening_range.avg_volume < current_bar.volume)
    breakout && volume_confirm

/-- Source `calculate_position_size`: `int(equity * risk_pct / (entry - stop))`
(truncation toward zero), clamped to ≥ 0; 0 when the stop is at or above the
entry. -/
def calculate_position_size (p : ORBParams) (entry_price stop_loss equity : ℚ) : ℤ :=
  let risk_dollars := equity * p.risk_pct
  let risk_per_share := entry_price - stop_loss
  if risk_per_share ≤ 0 then 0
  else
    let shares := pyTrunc (risk_dollars / risk_per_share)
    if shares < 0 then 0 else shares

/-- Source `_hold_signal`. -/
def hold_signal (symbol : String) (df : List Bar) (now : ETTime) : Signal :=
  { symbol := symbol
    signal_type := .HOLD
    strength := 0
    price := lastCloseD df
    timestamp := now }

/-- Source `_sell_signal`: price is the last close (0 on an empty frame); when a
position is recorded for the symbol its pnl `(price − entry) × shares` is
realized into `daily_pnl` and the position is deleted. -/
def sell_signal (s : ORBState) (symbol : String) (df : List Bar)
    (reason : String) (now : ETTime) : Signal × ORBState :=
  let current_price := lastCloseD df
  let s' :=
    match s.positions.lookup symbol with
    | some position =>
        let pnl := (current_price - position.entry_price) * (position.shares : ℚ)
        { s with daily_pnl := s.daily_pnl + pnl
                 positions := alErase s.positions symbol }
    | none => s
  ({ symbol := symbol
     signal_type := .SELL
     strength := 1
     price := current_price
     timestamp := now
     reason := some reason }, s')

/-- Source `_buy_signal`: derives stop/target from the OR range, sizes the
position, records it and emits BUY; HOLD when the size comes out ≤ 0.
Only called with a nonempty `df`. -/
def buy_signal (p : ORBParams) (s : ORBState) (symbol : String) (df : List Bar)
    (opening_range : OpeningRange) (equity : ℚ) (now : ETTime) :
    Signal × ORBState :=
  let current_price := lastCloseD df
  let stop_loss := current_price - opening_range.range
  let take_profit := current_price + p.riskReward * opening_range.range
  let shares := calculate_position_size p current_price stop_loss equity
  if shares ≤ 0 then (hold_signal symbol df now, s)
  else
    let newPosition : ORBPosition :=
      { symbol := symbol
        entry_price := current_price
        entry_time := now
        shares := shares
        stop_loss := stop_loss
        take_profit := take_profit
        or_high := opening_range.high }
    let s' := { s with positions := alInsert s.positions symbol newPosition }
    ({ symbol := symbol
       signal_type := .BUY
       strength := 1
       price := current_price
       timestamp := now
       stop_loss := some stop_loss
       take_profit := some take_profit
       reason := some "breakout" }, s')

/-- Source `_check_exit_conditions`: fixed stop, then target, then (optionally)
false-breakout exit against the recorded OR high; HOLD when no position is
recorded or the frame is empty. -/
def check_exit_conditions (p : ORBParams) (s : ORBState) (symbol : String)
    (df : List Bar) (now : ETTime) : Signal × ORBState :=
  match s.positions.lookup symbol with
  | none => (hold_signal symbol df now, s)
  | some position =>
    if df = [] then (hold_signal symbol df now, s)
    else
      let current_price := lastCloseD df
      if current_price ≤ position.stop_loss then
        sell_signal s symbol df "stop_loss" now
      else if position.take_profit ≤ current_price then
        sell_signal s symbol df "take_profit" now
      else if p.check_false_breakout && decide (current_price < position.or_high) then
        sell_signal s symbol df "false_breakout" now
      else (hold_signal symbol df now, s)

/-- Source `_process_entry_window`: the open-position-count cap is tested first;
then an open position in this symbol routes to the exit check; then a valid
cached OR plus a breakout bar produces a BUY. -/
def process_entry_window (p : ORBParams) (s : ORBState) (symbol : String)
    (df : List Bar) (equity : ℚ) (now : ETTime) : Signal × ORBState :=
  if p.max_positions ≤ s.positions.length then (hold_signal symbol df now, s)
  else if (s.positions.lookup symbol).isSome then
    check_exit_conditions p s symbol df now
  else
    match s.opening_ranges.lookup symbol with
    | none => (hold_signal symbol df now, s)
    | some opening_range =>
      if !opening_range.is_valid then (hold_signal symbol df now, s)
      else if df = [] then (hold_signal symbol df now, s)
      else
        let current_bar := df.getLastD default
        if check_entry_signal p current_bar opening_range then
          buy_signal p s symbol df opening_range equity now
        else (hold_signal symbol df now, s)

/-- Source `_process_manage_only`: exit check when a position is open, else HOLD. -/
def process_manage_only (p : ORBParams) (s : ORBState) (symbol : String)
    (df : List Bar) (now : ETTime) : Signal × ORBState :=
  if (s.positions.lookup symbol).isSome then check_exit_conditions p s symbol df now
  else (hold_signal symbol df now, s)

/-- The part of `OpeningRangeBreakoutStrategy.generate_signal` after the
daily-reset check: daily-stop short-circuit, daily-loss trip, then phase
dispatch. -/
def generate_signal_body (p : ORBParams) (s : ORBState) (df : List Bar)
    (symbol : String) (equity : ℚ) (now : ETTime) : Signal × ORBState :=
  let phase := get_trading_phase now.tod
  if s.is_daily_stopped then (hold_signal symbol df now, s)
  else
    if 0 < s.daily_starting_equity ∧
        s.daily_pnl / s.daily_starting_equity ≤ -p.daily_max_loss_pct then
      let s := { s with is_daily_stopped := true }
      if (s.positions.lookup symbol).isSome then
        sell_signal s symbol df "daily_risk_stop" now
      else (hold_signal symbol df now, s)
    else
      match phase with
      | .pre_market => (hold_signal symbol df now, s)
      | .noise => (hold_signal symbol df now, s)
      | .calc_or =>
          let s :=
            if (s.opening_ranges.lookup symbol).isNone then
              match calculate_opening_range p symbol df now.date
                  (now.date * dayUs + orCalcStartUs)
                  (now.date * dayUs + orCalcEndUs) with
              | some orr =>
                  { s with opening_ranges := alInsert s.opening_ranges symbol orr }
              | none => s
            else s
          (hold_signal symbol df now, s)
      | .entry_window => process_entry_window p s symbol df equity now
      | .manage_only => process_manage_only p s symbol df now
      | .force_close =>
          if (s.positions.lookup symbol).isSome then
            sell_signal s symbol df "force_close_eod" now
          else (hold_signal symbol df now, s)
      | .after_hours => (hold_signal symbol df now, s)

/-- Source `OpeningRangeBreakoutStrategy.generate_signal` with the wall clock `now`
passed explicitly (the source reads `datetime.now(ET)`): daily reset on a
new date, then `generate_signal_body`. -/
def generate_signal (p : ORBParams) (s : ORBState) (df : List Bar)
    (symbol : String) (equity : ℚ) (now : ETTime) : Signal × ORBState :=
  let s := if s.last_reset_date ≠ some now.date then reset_daily_state equity now else s
  generate_signal_body p s df symbol equity now

/-! ## Risk manager (`src/src/risk/manager.py`) -/

/-- The `RiskLimits` dataclass with its source defaults. -/
structure RiskLimits where
  max_position_size_pct : ℚ := 1 / 20
  max_positions : ℕ := 10
  max_portfolio_pct : ℚ := 4 / 5
  max_daily_loss_pct : ℚ := 1 / 20
  max_weekly_loss_pct : ℚ := 1 / 10
  max_drawdown_pct : ℚ := 3 / 20
  default_stop_loss_pct : ℚ := 1 / 50
  default_take_profit_pct : ℚ := 1 / 20
deriving DecidableEq, Repr

/-- The broker `Account` dataclass (`src/src/broker/base.py`), restricted to
the fields the risk manager reads. -/
structure Account where
  cash : ℚ := 0
  portfolio_value : ℚ := 0
  buying_power : ℚ := 0
  equity : ℚ := 0
deriving DecidableEq, Repr

/-- The broker `Position` dataclass (`src/src/broker/base.py`), restricted to
the fields the risk manager reads. -/
structure Position where
  symbol : String
  quantity : ℚ := 0
  avg_entry_price : ℚ := 0
  current_price : ℚ := 0
  market_value : ℚ := 0
deriving DecidableEq, Repr

/-- Mutable fields of `RiskManager`; dates are days since an epoch Monday. -/
structure RMState where
  limits : RiskLimits := {}
  peak_equity : ℚ := 0
  daily_starting_equity : ℚ := 0
  weekly_starting_equity : ℚ := 0
  last_daily_reset : Option ℕ := none
  last_weekly_reset : Option ℕ := none
  kill_switch_active : Bool := false
deriving DecidableEq, Repr

/-- The six blocking conditions of the `get_risk_status` cascade, standing
for the formatted `blocked_reason` strings of the source. -/
inductive BlockedReason where
  | killSwitch
  | dailyLoss
  | weeklyLoss
  | maxDrawdown
  | maxPositions
  | maxAllocation
deriving DecidableEq, Repr

/-- The `RiskStatus` dataclass. -/
structure RiskStatus where
  can_trade : Bool
  daily_pnl : ℚ
  daily_pnl_pct : ℚ
  weekly_pnl : ℚ
  weekly_pnl_pct : ℚ
  current_drawdown_pct : ℚ
  positions_count : ℕ
  portfolio_allocation_pct : ℚ
  blocked_reason : Option BlockedReason := none
deriving DecidableEq, Repr

/-- First step of `update_equity_tracking`: roll the daily baseline on the
first observation of a new calendar date. -/
def rollDaily (s : RMState) (current_equity : ℚ) (today : ℕ) : RMState :=
  if s.last_daily_reset ≠ some today then
    { s with daily_starting_equity := current_equity
             last_daily_reset := some today }
  else s

/-- Second step of `update_equity_tracking`: roll the weekly baseline on a
first-contact observation or a Monday (`today % 7 = 0`) not yet reset. -/
def rollWeekly (s : RMState) (current_equity : ℚ) (today : ℕ) : RMState :=
  if s.last_weekly_reset = none ∨
      (today % 7 = 0 ∧ s.last_weekly_reset ≠ some today) then
    { s with weekly_starting_equity := current_equity
             last_weekly_reset := some today }
  else s

/-- Third step of `update_equity_tracking`: ratchet the equity peak. -/
def ratchetPeak (s : RMState) (current_equity : ℚ) : RMState :=
  if s.peak_equity < current_equity then { s with peak_equity := current_equity }
  else s

/-- Source `RiskManager.update_equity_tracking(current_equity)` at calendar date
`today`: daily roll, then weekly roll, then peak ratchet, exactly as the
source's three sequential `if` blocks. -/
def update_equity_tracking (s : RMState) (current_equity : ℚ) (today : ℕ) :
    RMState :=
  ratchetPeak (rollWeekly (rollDaily s current_equity today) current_equity today)
    current_equity

/-- The drawdown branch of the cascade also latches the kill switch
(`self.kill_switch_active = True` under `elif drawdown >= ...`). -/
def applyLatch (s : RMState) (verdict : Option BlockedReason) : RMState :=
  if verdict = some .maxDrawdown then { s with kill_switch_active := true }
  else s

/-- The `if/elif` blocking cascade of `get_risk_status`, over the six
already-evaluated conditions in precedence order. -/
def cascadeVerdict (kill c2 c3 c4 c5 c6 : Bool) : Option BlockedReason :=
  if kill then some .killSwitch
  else if c2 then some .dailyLoss
  else if c3 then some .weeklyLoss
  else if c4 then some .maxDrawdown
  else if c5 then some .maxPositions
  else if c6 then some .maxAllocation
  else none

/-- Source `RiskManager.get_risk_status(account, positions)` at calendar date
`today`, returning the status snapshot and the successor manager state
(equity tracking plus the possible kill-switch latch from the drawdown
branch). -/
def get_risk_status (s : RMState) (account : Account)
    (positions : List Position) (today : ℕ) : RiskStatus × RMState :=
  let s := update_equity_tracking s account.equity today
  let daily_pnl := account.equity - s.daily_starting_equity
  let daily_pnl_pct :=
    if 0 < s.daily_starting_equity then daily_pnl / s.daily_starting_equity else 0
  let weekly_pnl := account.equity - s.weekly_starting_equity
  let weekly_pnl_pct :=
    if 0 < s.weekly_starting_equity then weekly_pnl / s.weekly_starting_equity else 0
  let drawdown :=
    if 0 < s.peak_equity then (s.peak_equity - account.equity) / s.peak_equity
    else 0
  let total_position_value := (positions.map (·.market_value)).sum
  let allocation_pct :=
    if 0 < account.portfolio_value then total_position_value / account.portfolio_value
    else 0
  let verdict : Option BlockedReason :=
    cascadeVerdict s.kill_switch_active
      (decide (daily_pnl_pct ≤ -s.limits.max_daily_loss_pct))
      (decide (weekly_pnl_pct ≤ -s.limits.max_weekly_loss_pct))
      (decide (s.limits.max_drawdown_pct ≤ drawdown))
      (decide (s.limits.max_positions ≤ positions.length))
      (decide (s.limits.max_portfolio_pct ≤ allocation_pct))
  let s := applyLatch s verdict
  ({ can_trade := verdict = none
     daily_pnl := daily_pnl
     daily_pnl_pct := daily_pnl_pct
     weekly_pnl := weekly_pnl
     weekly_pnl_pct := weekly_pnl_pct
     current_drawdown_pct := drawdown
     positions_count := positions.length
     portfolio_allocation_pct := allocation_pct
     blocked_reason := verdict }, s)

/-- Source `RiskManager.reset_kill_switch`. -/
def reset_kill_switch (s : RMState) : RMState :=
  { s with kill_switch_active := false }

/-- Source `RiskManager.activate_kill_switch`. -/
def activate_kill_switch (s : RMState) : RMState :=
  { s with kill_switch_active := true }

/-- Rejection reasons of `validate_signal`, standing for the source's
formatted strings. -/
inductive RejectReason where
  | blocked (r : BlockedReason)
  | alreadyInPosition (symbol : String)
  | positionTooSmall
deriving DecidableEq, Repr

/-- Source `RiskManager.validate_signal(signal, account, positions, current_price)`
at calendar date `today`: recomputes the risk status (which may mutate the
manager state), rejects if blocked, passes non-BUY signals through unsized,
rejects a BUY duplicating an open symbol, and otherwise sizes
`min(portfolio_value × max_position_size_pct, buying_power) × strength`,
rejecting sizes below one dollar.  `current_price` is unused by the source. -/
def validate_signal (s : RMState) (signal : Signal) (account : Account)
    (positions : List Position) (current_price : ℚ) (today : ℕ) :
    (Bool × Option RejectReason × ℚ) × RMState :=
  let rs := get_risk_status s account positions today
  let risk_status := rs.1
  let s' := rs.2
  if !risk_status.can_trade then
    ((false, risk_status.blocked_reason.map .blocked, 0), s')
  else if signal.signal_type ≠ .BUY then ((true, none, 0), s')
  else if (positions.find? (fun pos => pos.symbol = signal.symbol)).isSome then
    ((false, some (.alreadyInPosition signal.symbol), 0), s')
  else
    let max_position_value := account.portfolio_value * s'.limits.max_position_size_pct
    let position_size := qmin max_position_value account.buying_power * signal.strength
    if position_size < 1 then ((false, some .positionTooSmall, 0), s')
    else ((true, none, position_size), s')

/-- Feed a sequence of (equity, date) observations through `get_risk_status`
(empty position list, the account carrying only the observed equity),
collecting each snapshot with its successor state. -/
def riskSteps (s : RMState) : List (ℚ × ℕ) → List (RiskStatus × RMState)
  | [] => []
  | o :: rest =>
      let pr := get_risk_status s { equity := o.1 } [] o.2
      pr :: riskSteps pr.2 rest

/-! ## Backtest engine (`src/backtest/engine.py`) -/

/-- Constructor parameters of `BacktestEngine`. -/
structure EngineParams where
  initial_capital : ℚ := 100000
  commission_pct : ℚ := 1 / 1000
  slippage_pct : ℚ := 1 / 1000
deriving DecidableEq, Repr

/-- The engine's in-loop `position` dict. -/
structure BTPosition where
  entry_ts : ℕ
  entry_price : ℚ
  quantity : ℚ
  stop_loss : ℚ
  take_profit : ℚ
deriving DecidableEq, Repr

/-- The `BacktestTrade` dataclass (dates as bar timestamps). -/
structure BacktestTrade where
  entry_ts : ℕ
  entry_price : ℚ
  exit_ts : ℕ
  exit_price : ℚ
  quantity : ℚ
  side : String
  pnl : ℚ
  pnl_pct : ℚ
  exit_reason : String
deriving DecidableEq, Repr

/-- Source `profit_factor`: `total_wins / total_losses` when there are losses, else
the float `inf`. -/
inductive PFVal where
  | fin (q : ℚ)
  | inf
deriving DecidableEq, Repr

/-- The Sharpe value.  The source computes
`mean(returns)/std(returns)*sqrt 252`, irrational in general; the defined
case carries the exact `(mean, sample variance)` pair, from which the float
value is determined, and `zero` is the source's 0 default for a zero or
undefined standard deviation. -/
inductive SharpeVal where
  | zero
  | defined (mean svar : ℚ)
deriving DecidableEq, Repr

/-- The `BacktestResult` dataclass (dates as bar timestamps; `sharpe` is the
source's `sharpe_ratio`). -/
structure BacktestResult where
  strategy_name : String
  symbol : String
  start_ts : ℕ
  end_ts : ℕ
  initial_capital : ℚ
  final_capital : ℚ
  total_return : ℚ
  total_return_pct : ℚ
  num_trades : ℕ
  winning_trades : ℕ
  losing_trades : ℕ
  win_rate : ℚ
  avg_win : ℚ
  avg_loss : ℚ
  profit_factor : PFVal
  max_drawdown : ℚ
  max_drawdown_pct : ℚ
  sharpe : SharpeVal
  trades : List BacktestTrade
  equity_curve : List (ℕ × ℚ)
deriving DecidableEq, Repr

/-- Mutable loop state of `BacktestEngine.run`. -/
structure LoopState where
  capital : ℚ
  position : Option BTPosition := none
  trades : List BacktestTrade := []
  equity_curve : List (ℕ × ℚ) := []
deriving DecidableEq, Repr

/-- Close the open position `pos` at `exit_price` with the exit-leg
commission, as the stop/target and SELL-signal paths do: append the trade
and return the freed capital. -/
def closeTrade (e : EngineParams) (st : LoopState) (pos : BTPosition)
    (exit_price : ℚ) (exit_ts : ℕ) (exit_reason : String) : LoopState :=
  let pnl0 := (exit_price - pos.entry_price) * pos.quantity
  let pnl := pnl0 - exit_price * pos.quantity * e.commission_pct
  { st with
      capital := st.capital + pos.quantity * pos.entry_price + pnl
      position := none
      trades := st.trades ++
        [{ entry_ts := pos.entry_ts
           entry_price := pos.entry_price
           exit_ts := exit_ts
           exit_price := exit_price
           quantity := pos.quantity
           side := "long"
           pnl := pnl
           pnl_pct := pnl / (pos.entry_price * pos.quantity)
           exit_reason := exit_reason }] }

/-- The signal-generation half of one loop iteration of
`BacktestEngine.run`: with at least 20 bars of history, request a signal on
the visible prefix (`data.iloc[:i+1]`, abstracted as `sig`) and execute it —
a BUY with no open position opens at the close adjusted by slippage, a SELL
with an open position closes at the close adjusted by slippage. -/
def signalPhase (e : EngineParams) (sig : List Bar → SignalType)
    (position_size_pct stop_loss_pct take_profit_pct : ℚ) (data : List Bar)
    (st : LoopState) (i : ℕ) : LoopState :=
  let row := data.getD i default
  let current_price := row.close
  let ts := row.ts
  if i + 1 < 20 then st
  else
    match sig (data.take (i + 1)), st.position with
    | .BUY, none =>
        let position_value := st.capital * position_size_pct
        let entry_price := current_price * (1 + e.slippage_pct)
        let quantity := position_value * (1 - e.commission_pct) / entry_price
        { st with
            capital := st.capital - position_value
            position := some
              { entry_ts := ts
                entry_price := entry_price
                quantity := quantity
                stop_loss := entry_price * (1 - stop_loss_pct)
                take_profit := entry_price * (1 + take_profit_pct) } }
    | .SELL, some pos =>
        closeTrade e st pos (current_price * (1 - e.slippage_pct)) ts "signal"
    | _, _ => st

/-- One iteration of the `for i in range(len(data))` loop of
`BacktestEngine.run`: mark equity, check the fixed stop/target (Python's
`if exit_price:` is a truthiness test, so an exit level equal to 0 does
NOT fire and control falls through to signal generation — modelled by the
`ep ≠ 0` guard), and on an exit skip signal generation for the bar
(`continue`); otherwise run `signalPhase`. -/
def engineStep (e : EngineParams) (sig : List Bar → SignalType)
    (position_size_pct stop_loss_pct take_profit_pct : ℚ) (data : List Bar)
    (st : LoopState) (i : ℕ) : LoopState :=
  let row := data.getD i default
  let current_price := row.close
  let ts := row.ts
  let current_value :=
    match st.position with
    | some pos => st.capital + (current_price - pos.entry_price) * pos.quantity
    | none => st.capital
  let st := { st with equity_curve := st.equity_curve ++ [(ts, current_value)] }
  match st.position with
  | some pos =>
      let hit : Option (ℚ × String) :=
        if current_price ≤ pos.stop_loss then
          some (pos.stop_loss * (1 - e.slippage_pct), "stop_loss")
        else if pos.take_profit ≤ current_price then
          some (pos.take_profit * (1 - e.slippage_pct), "take_profit")
        else none
      match hit with
      | some (ep, reason) =>
          if ep ≠ 0 then closeTrade e st pos ep ts reason
          else signalPhase e sig position_size_pct stop_loss_pct take_profit_pct
            data st i
      | none =>
          signalPhase e sig position_size_pct stop_loss_pct take_profit_pct
            data st i
  | none =>
      signalPhase e sig position_size_pct stop_loss_pct take_profit_pct data st i

/-- The whole bar loop of `BacktestEngine.run`. -/
def runLoop (e : EngineParams) (sig : List Bar → SignalType)
    (position_size_pct stop_loss_pct take_profit_pct : ℚ) (data : List Bar) :
    LoopState :=
  (List.range data.length).foldl
    (engineStep e sig position_size_pct stop_loss_pct take_profit_pct data)
    { capital := e.initial_capital }

/-- Source `BacktestEngine._calculate_metrics`. -/
def calculate_metrics (e : EngineParams) (strategy_name symbol : String)
    (start_ts end_ts : ℕ) (trades : List BacktestTrade)
    (equity_curve : List (ℕ × ℚ)) : BacktestResult :=
  if equity_curve = [] then
    { strategy_name := strategy_name
      symbol := symbol
      start_ts := start_ts
      end_ts := end_ts
      initial_capital := e.initial_capital
      final_capital := e.initial_capital
      total_return := 0
      total_return_pct := 0
      num_trades := 0
      winning_trades := 0
      losing_trades := 0
      win_rate := 0
      avg_win := 0
      avg_loss := 0
      profit_factor := .fin 0
      max_drawdown := 0
      max_drawdown_pct := 0
      sharpe := .zero
      trades := []
      equity_curve := [] }
  else
    let equities := equity_curve.map (·.2)
    let final_capital := equities.getLastD 0
    let total_return := final_capital - e.initial_capital
    let total_return_pct := total_return / e.initial_capital
    let winning_trades := trades.filter (fun t => 0 < t.pnl)
    let losing_trades := trades.filter (fun t => t.pnl ≤ 0)
    let win_rate :=
      if trades ≠ [] then (winning_trades.length : ℚ) / trades.length else 0
    let avg_win := if winning_trades ≠ [] then meanQ (winning_trades.map (·.pnl)) else 0
    let avg_loss := if losing_trades ≠ [] then qabs (meanQ (losing_trades.map (·.pnl))) else 0
    let total_wins := (winning_trades.map (·.pnl)).sum
    let total_losses := qabs (losing_trades.map (·.pnl)).sum
    let profit_factor : PFVal :=
      if 0 < total_losses then .fin (total_wins / total_losses) else .inf
    let peaks := (equities.scanl qmax (equities.headD 0)).drop 1
    let drawdowns := peaks.zipWith (fun pk eq => pk - eq) equities
    let drawdown_pcts := peaks.zipWith (fun pk eq => (pk - eq) / pk) equities
    let max_drawdown := maxQ drawdowns
    let max_drawdown_pct := maxQ drawdown_pcts
    let returns := pctChanges equities
    let sharpe : SharpeVal :=
      if 2 ≤ returns.length ∧ 0 < svarQ returns then
        .defined (meanQ returns) (svarQ returns)
      else .zero
    { strategy_name := strategy_name
      symbol := symbol
      start_ts := start_ts
      end_ts := end_ts
      initial_capital := e.initial_capital
      final_capital := final_capital
      total_return := total_return
      total_return_pct := total_return_pct
      num_trades := trades.length
      winning_trades := winning_trades.length
      losing_trades := losing_trades.length
      win_rate := win_rate
      avg_win := avg_win
      avg_loss := avg_loss
      profit_factor := profit_factor
      max_drawdown := max_drawdown
      max_drawdown_pct := max_drawdown_pct
      sharpe := sharpe
      trades := trades
      equity_curve := equity_curve }

/-- Source `BacktestEngine.run`: `calculate_indicators` is modelled as the identity
on the bar list (both repository strategies preserve the rows; the MA
strategy only adds columns).  The trailing still-open position is closed at
the final close with no slippage and no commission.  On an empty series
`data.index[0]` raises `IndexError` (modelled as the `Except.error`). -/
def run (e : EngineParams) (sig : List Bar → SignalType)
    (strategy_name symbol : String) (data : List Bar)
    (position_size_pct stop_loss_pct take_profit_pct : ℚ) :
    Except String BacktestResult :=
  let st := runLoop e sig position_size_pct stop_loss_pct take_profit_pct data
  let st :=
    match st.position with
    | some pos =>
        let exit_price := (data.getLastD default).close
        let pnl := (exit_price - pos.entry_price) * pos.quantity
        let eodTrade : BacktestTrade :=
          { entry_ts := pos.entry_ts
            entry_price := pos.entry_price
            exit_ts := (data.getLastD default).ts
            exit_price := exit_price
            quantity := pos.quantity
            side := "long"
            pnl := pnl
            pnl_pct := pnl / (pos.entry_price * pos.quantity)
            exit_reason := "end_of_data" }
        { st with
            capital := st.capital + pos.quantity * pos.entry_price + pnl
            position := none
            trades := st.trades ++ [eodTrade] }
    | none => st
  match data with
  | [] => Except.error "IndexError: index 0 is out of bounds"
  | d0 :: _ =>
      Except.ok
        (calculate_metrics e strategy_name symbol d0.ts
          (data.getLastD default).ts st.trades st.equity_curve)

/-! ## Concrete fixtures used by witnesses and counterexamples -/

/-- ET time 10:00 on day 3 (inside the entry window). -/
def now2fix : ETTime := ⟨3, 36000000000⟩

/-- An open SPY position: entry 100, stop 95, target 110, OR high 105. -/
def pos2fix : ORBPosition := ⟨"SPY", 100, now2fix, 10, 95, 110, 105⟩

/-- Strategy state with the daily-stop flag already set, an open SPY
position, and the daily state already reset for day 3. -/
def s2fix : ORBState :=
  { positions := [("SPY", pos2fix)]
    daily_pnl := 0
    daily_starting_equity := 100000
    last_reset_date := some 3
    is_daily_stopped := true }

/-- A single bar whose close 90 is at or below the fixture position's stop. -/
def df3fix : List Bar := [⟨3 * dayUs + 36000000000, 100, 100, 100, 90, 1000⟩]

/-- Same state as `s2fix` but with the daily-stop flag clear. -/
def s3fix : ORBState := { s2fix with is_daily_stopped := false }

/-- Five OR-window bars whose minimum low is 0 while the highs reach 2
(`or_low = 0`, `or_range = 2 > 0`). -/
def c4zeroBars : List Bar :=
  (List.range 5).map (fun i => ⟨34500000000 + i * 60000000, 1, 2, 0, 1, 1000⟩)

/-- Five OR-window bars sitting exactly at the validity threshold:
lows 100, highs 100.2, so `range/low = 0.002 = min_or_range_pct`. -/
def c4edgeBars : List Bar :=
  (List.range 5).map (fun i => ⟨34500000000 + i * 60000000, 100, 501 / 5, 100, 100, 1000⟩)

/-- The opening range produced from `c4edgeBars`. -/
def c4edgeOR : OpeningRange :=
  { symbol := "SPY", date := 0, high := 501 / 5, low := 100, range := 1 / 5,
    avg_volume := 1000, is_valid := true }

/-- ET time 15:56 on day 3 (force-close phase). -/
def now10fix : ETTime := ⟨3, 57400000000⟩

/-- Strategy state for the empty-frame SELL scenario: open SPY position and
7 dollars of realized P&L. -/
def s10fix : ORBState := { s3fix with daily_pnl := 7 }

/-- Engine with zero slippage and commission for the end-of-data witness. -/
def c7e : EngineParams := ⟨100000, 0, 0⟩

/-- One flat bar at close 100. -/
def c7bar : Bar := ⟨0, 100, 100, 100, 100, 1000⟩

/-- Twenty identical bars at close 100: the shortest series on which the engine
requests a signal. -/
def c7bars : List Bar := List.replicate 20 c7bar

/-- A strategy stub that buys exactly when it sees all 20 bars. -/
def c7sig : List Bar → SignalType :=
  fun l => if l.length = 20 then .BUY else .HOLD

/-- The position the engine holds after the 20th bar of `c7bars` with
5% sizing, 2% stop and 5% target: 5000 dollars at entry 100. -/
def c7pos : BTPosition := ⟨0, 100, 50, 98, 105⟩

/-- A single flat bar for the short-series scenarios. -/
def c1bar : Bar := ⟨7, 50, 50, 50, 50, 900⟩

/-- Risk-manager state with baselines at 100000 established on day 3
(a Thursday, so no weekly roll interferes). -/
def rm5fix : RMState :=
  { peak_equity := 100000
    daily_starting_equity := 100000
    weekly_starting_equity := 100000
    last_daily_reset := some 3
    last_weekly_reset := some 3 }

/-- An account whose 80000 equity trips the daily, weekly and drawdown
limits at once against `rm5fix`. -/
def acct5fix : Account := { portfolio_value := 80000, buying_power := 80000, equity := 80000 }

/-- A healthy account for the `validate_signal` witness. -/
def acct8fix : Account :=
  { portfolio_value := 100000, buying_power := 50000, equity := 100000 }

/-- A BUY signal at strength 1 for SPY. -/
def sig8fix : Signal :=
  { symbol := "SPY"
    signal_type := .BUY
    strength := 1
    price := 100
    timestamp := now2fix }

/-! ## Theorems -/

/-- C9: `get_trading_phase` is a pure total function of the supplied time of
day; each of the seven phases is returned exactly on its half-open interval
(`t<09:30→pre_market, 09:30≤t<09:35→noise, 09:35≤t<09:45→calc_or,
09:45≤t<11:00→entry_window, 11:00≤t<15:55→manage_only,
15:55≤t<16:00→force_close, t≥16:00→after_hours`), so the phases partition
the 24-hour day with no gap or overlap. -/
theorem c9_phase_partition (t : ℕ) :
    (get_trading_phase t = .pre_market ↔ t < marketOpenUs) ∧
    (get_trading_phase t = .noise ↔ marketOpenUs ≤ t ∧ t < orCalcStartUs) ∧
    (get_trading_phase t = .calc_or ↔ orCalcStartUs ≤ t ∧ t < orCalcEndUs) ∧
    (get_trading_phase t = .entry_window ↔ orCalcEndUs ≤ t ∧ t < entryWindowEndUs) ∧
    (get_trading_phase t = .manage_only ↔ entryWindowEndUs ≤ t ∧ t < forceCloseUs) ∧
    (get_trading_phase t = .force_close ↔ forceCloseUs ≤ t ∧ t < marketCloseUs) ∧
    (get_trading_phase t = .after_hours ↔ marketCloseUs ≤ t) := by
  unfold get_trading_phase marketOpenUs orCalcStartUs orCalcEndUs
    entryWindowEndUs forceCloseUs marketCloseUs
  split_ifs <;> simp_all <;> omega

/-- C4 counterexample: on five OR-window bars with minimum low 0 and positive
range, `calculate_opening_range` yields `is_valid = true` (`2/0` is the
float `+∞`, which compares `≥ min_or_range_pct`), while the claim demands
`is_valid = false` whenever `low ≤ 0`. -/
theorem c4_counterexample :
    (calculate_opening_range {} "SPY" c4zeroBars 0 orCalcStartUs orCalcEndUs).map
      (fun orr => (orr.low, orr.range, orr.is_valid)) = some (0, 2, true) := by
  simp [calculate_opening_range, c4zeroBars, List.range_succ, maxQ, minQ, meanQ,
    ieeeDivGe, qmax, qmin, orCalcStartUs, orCalcEndUs]

/-- C4 amended: for every `OpeningRange` produced by
`calculate_opening_range`, `is_valid` is the IEEE outcome of
`range/low ≥ min_or_range_pct`: for `low > 0` it is true iff the exact
quotient reaches the threshold (boundary inclusive); for `low = 0` it is
true iff `range > 0` (the division yields `+∞`/`NaN` and raises no
exception); for `low < 0` it again follows the signed exact quotient. -/
theorem c4_is_valid_characterization (p : ORBParams) (symbol : String)
    (bars : List Bar) (today orStart orEnd : ℕ) (orr : OpeningRange)
    (h : calculate_opening_range p symbol bars today orStart orEnd = some orr) :
    (0 < orr.low → (orr.is_valid = true ↔ p.min_or_range_pct ≤ orr.range / orr.low)) ∧
    (orr.low = 0 → (orr.is_valid = true ↔ 0 < orr.range)) ∧
    (orr.low < 0 → (orr.is_valid = true ↔ p.min_or_range_pct ≤ orr.range / orr.low)) := by
  unfold calculate_opening_range at h
  split at h
  · exact absurd h (by simp)
  · simp only [] at h
    split at h
    · exact absurd h (by simp)
    · rw [Option.some_inj] at h
      subst h
      simp only [ieeeDivGe]
      refine ⟨?_, ?_, ?_⟩
      · intro hlow
        rw [if_neg (ne_of_gt hlow)]
        simp
      · intro hlow
        rw [hlow, if_pos rfl]
        split_ifs with hr <;> simp_all
      · intro hlow
        rw [if_neg (ne_of_lt hlow)]
        simp

/-- C4 witness: at the exact threshold (`low = 100`, `range = 1/5`,
`min_or_range_pct = 1/500`), the produced range is valid iff the inclusive
comparison holds — and here it does. -/
theorem c4_witness :
    calculate_opening_range {} "SPY" c4edgeBars 0 orCalcStartUs orCalcEndUs =
      some c4edgeOR ∧
    (0 < c4edgeOR.low) ∧
    (c4edgeOR.is_valid = true ↔
      ORBParams.min_or_range_pct {} ≤ c4edgeOR.range / c4edgeOR.low) :=
  have h : calculate_opening_range {} "SPY" c4edgeBars 0 orCalcStartUs orCalcEndUs =
      some c4edgeOR := by
    simp [calculate_opening_range, c4edgeBars, c4edgeOR, List.range_succ, maxQ, minQ,
      meanQ, ieeeDivGe, qmax, qmin, orCalcStartUs, orCalcEndUs]
    norm_num
  have hlow : (0 : ℚ) < c4edgeOR.low := by norm_num [c4edgeOR]
  ⟨h, hlow,
    (c4_is_valid_characterization {} "SPY" c4edgeBars 0 orCalcStartUs orCalcEndUs
      c4edgeOR h).1 hlow⟩

/-- C2 counterexample: with the daily-stop flag already set, the daily state
already reset for the current date, and an open SPY position,
`generate_signal` returns HOLD — not the SELL("daily_risk_stop") the claim
demands when a position is open. -/
theorem c2_counterexample :
    s2fix.is_daily_stopped = true ∧
    s2fix.last_reset_date = some now2fix.date ∧
    (s2fix.positions.lookup "SPY").isSome = true ∧
    (generate_signal {} s2fix df3fix "SPY" 100000 now2fix).1.signal_type = .HOLD := by
  decide

/-- C2 amended: on every evaluation tick on which the daily-stop flag is
already set and no daily reset intervenes, `generate_signal` returns HOLD
and leaves the state untouched, whether or not a position is open; the
SELL("daily_risk_stop") is emitted only on the transition tick that first
sets the flag. -/
theorem c2_flag_already_set_holds (p : ORBParams) (s : ORBState)
    (df : List Bar) (symbol : String) (equity : ℚ) (now : ETTime)
    (hreset : s.last_reset_date = some now.date)
    (hstop : s.is_daily_stopped = true) :
    generate_signal p s df symbol equity now = (hold_signal symbol df now, s) := by
  unfold generate_signal generate_signal_body
  simp [hreset, hstop]

/-- C2 witness: the amended statement at the concrete flagged state. -/
theorem c2_witness :
    s2fix.last_reset_date = some now2fix.date ∧ s2fix.is_daily_stopped = true ∧
    generate_signal {} s2fix df3fix "SPY" 100000 now2fix =
      (hold_signal "SPY" df3fix now2fix, s2fix) :=
  ⟨rfl, rfl, c2_flag_already_set_holds {} s2fix df3fix "SPY" 100000 now2fix rfl rfl⟩

/-- C3 counterexample: in the entry window (10:00), with the default
`max_positions = 1` and an open SPY position whose stop (95) is breached by
the bar close (90), `generate_signal` returns HOLD — the cap check fires
before the own-symbol exit check, which by itself would SELL("stop_loss"). -/
theorem c3_counterexample :
    get_trading_phase now2fix.tod = .entry_window ∧
    (s3fix.positions.lookup "SPY").isSome = true ∧
    (ORBParams.max_positions {} ≤ s3fix.positions.length) ∧
    (generate_signal {} s3fix df3fix "SPY" 100000 now2fix).1.signal_type = .HOLD ∧
    (check_exit_conditions {} s3fix "SPY" df3fix now2fix).1.signal_type = .SELL ∧
    (check_exit_conditions {} s3fix "SPY" df3fix now2fix).1.reason = some "stop_loss" := by
  refine ⟨by decide, by decide, by decide, ?_, ?_, ?_⟩ <;>
    · simp [generate_signal, generate_signal_body, process_entry_window,
        check_exit_conditions, sell_signal, hold_signal, s3fix, s2fix, pos2fix, df3fix,
        now2fix, get_trading_phase, reset_daily_state, lastCloseD, alErase, dayUs,
        marketOpenUs, orCalcStartUs, orCalcEndUs, entryWindowEndUs, forceCloseUs,
        marketCloseUs]
      norm_num

/-- C3 amended: in the entry window the open-position-count cap is applied
first: whenever `len(positions) ≥ max_positions` the result is HOLD even if
a position is open for the evaluated symbol; the exit check runs for an
open position only when the cap is not hit. -/
theorem c3_cap_checked_before_exit (p : ORBParams) (s : ORBState)
    (symbol : String) (df : List Bar) (equity : ℚ) (now : ETTime) :
    (p.max_positions ≤ s.positions.length →
      process_entry_window p s symbol df equity now = (hold_signal symbol df now, s)) ∧
    (s.positions.length < p.max_positions → (s.positions.lookup symbol).isSome →
      process_entry_window p s symbol df equity now =
        check_exit_conditions p s symbol df now) := by
  constructor
  · intro h
    unfold process_entry_window
    rw [if_pos h]
  · intro h1 h2
    unfold process_entry_window
    rw [if_neg (by omega), if_pos h2]

/-- C3 witness: both arms of the amended statement at concrete states — the
cap arm at `max_positions = 1`, the exit arm at `max_positions = 2`. -/
theorem c3_witness :
    (ORBParams.max_positions {} ≤ s3fix.positions.length ∧
      process_entry_window {} s3fix "SPY" df3fix 100000 now2fix =
        (hold_signal "SPY" df3fix now2fix, s3fix)) ∧
    (s3fix.positions.length < 2 ∧
      process_entry_window { max_positions := 2 } s3fix "SPY" df3fix 100000 now2fix =
        check_exit_conditions { max_positions := 2 } s3fix "SPY" df3fix now2fix) :=
  ⟨⟨by decide,
    (c3_cap_checked_before_exit {} s3fix "SPY" df3fix 100000 now2fix).1 (by decide)⟩,
   ⟨by decide,
    (c3_cap_checked_before_exit { max_positions := 2 } s3fix "SPY" df3fix 100000
      now2fix).2 (by decide) (by decide)⟩⟩

/-- Helper: the exit check on an empty bar frame always holds and leaves the
state untouched. -/
theorem check_exit_conditions_empty (p : ORBParams) (s : ORBState)
    (symbol : String) (now : ETTime) :
    check_exit_conditions p s symbol [] now = (hold_signal symbol [] now, s) := by
  unfold check_exit_conditions
  cases s.positions.lookup symbol <;> simp

/-- Helper: the entry window on an empty bar frame always holds and leaves
the state untouched. -/
theorem process_entry_window_empty (p : ORBParams) (s : ORBState)
    (symbol : String) (equity : ℚ) (now : ETTime) :
    process_entry_window p s symbol [] equity now = (hold_signal symbol [] now, s) := by
  unfold process_entry_window
  by_cases h1 : p.max_positions ≤ s.positions.length
  · rw [if_pos h1]
  · rw [if_neg h1]
    by_cases h2 : (s.positions.lookup symbol).isSome
    · rw [if_pos h2]
      exact check_exit_conditions_empty p s symbol now
    · rw [if_neg h2]
      rcases s.opening_ranges.lookup symbol with _ | orr
      · rfl
      · by_cases hv : orr.is_valid <;> simp [hv]

/-- Helper: the manage-only phase on an empty bar frame always holds and
leaves the state untouched. -/
theorem process_manage_only_empty (p : ORBParams) (s : ORBState)
    (symbol : String) (now : ETTime) :
    process_manage_only p s symbol [] now = (hold_signal symbol [] now, s) := by
  unfold process_manage_only
  split_ifs with h
  · exact check_exit_conditions_empty p s symbol now
  · rfl

/-- C10: whenever `generate_signal` emits a SELL on an empty bar frame, the
signal's price is 0 and the position's full entry value is booked as a loss:
the new `daily_pnl` is the old one minus `entry_price × shares`. -/
theorem c10_sell_on_empty_frame (p : ORBParams) (s : ORBState) (symbol : String)
    (equity : ℚ) (now : ETTime)
    (hsell : (generate_signal p s [] symbol equity now).1.signal_type = .SELL) :
    ∃ position, s.positions.lookup symbol = some position ∧
      (generate_signal p s [] symbol equity now).1.price = 0 ∧
      (generate_signal p s [] symbol equity now).2.daily_pnl =
        s.daily_pnl - position.entry_price * (position.shares : ℚ) := by
  have key : ∀ s' : ORBState,
      (generate_signal_body p s' [] symbol equity now).1.signal_type = .SELL →
      ∃ position, s'.positions.lookup symbol = some position ∧
        (generate_signal_body p s' [] symbol equity now).1.price = 0 ∧
        (generate_signal_body p s' [] symbol equity now).2.daily_pnl =
          s'.daily_pnl - position.entry_price * (position.shares : ℚ) := by
    intro s' hs
    unfold generate_signal_body at hs ⊢
    by_cases hstop : s'.is_daily_stopped = true
    · simp [hstop, hold_signal] at hs
    · rw [if_neg hstop] at hs ⊢
      by_cases hloss : 0 < s'.daily_starting_equity ∧
          s'.daily_pnl / s'.daily_starting_equity ≤ -p.daily_max_loss_pct
      · rw [if_pos hloss] at hs ⊢
        rcases hpos : s'.positions.lookup symbol with _ | position
        · simp [hpos, hold_signal] at hs
        · refine ⟨position, rfl, ?_, ?_⟩ <;>
            · simp [sell_signal, lastCloseD, hpos]
              try ring
      · rw [if_neg hloss] at hs ⊢
        cases hph : get_trading_phase now.tod <;> rw [hph] at hs
        · simp [hold_signal] at hs
        · simp [hold_signal] at hs
        · simp [hold_signal] at hs
        · rw [process_entry_window_empty] at hs
          simp [hold_signal] at hs
        · rw [process_manage_only_empty] at hs
          simp [hold_signal] at hs
        · rcases hpos : s'.positions.lookup symbol with _ | position
          · rw [hpos] at hs
            simp [hold_signal] at hs
          · refine ⟨position, rfl, ?_, ?_⟩ <;>
              · simp [sell_signal, lastCloseD, hpos]
                try ring
        · simp [hold_signal] at hs
  unfold generate_signal at hsell ⊢
  by_cases hr : s.last_reset_date ≠ some now.date
  · rw [if_pos hr] at hsell ⊢
    obtain ⟨position, hpos, -⟩ := key (reset_daily_state equity now) hsell
    simp [reset_daily_state] at hpos
  · rw [if_neg hr] at hsell ⊢
    exact key s hsell

/-- C10 witness: force-close phase (15:56) with an open SPY position (entry
100, 10 shares) and an empty frame: the SELL books a −1000 loss. -/
theorem c10_witness :
    (generate_signal {} s10fix [] "SPY" 100000 now10fix).1.signal_type = .SELL ∧
    ∃ position, s10fix.positions.lookup "SPY" = some position ∧
      (generate_signal {} s10fix [] "SPY" 100000 now10fix).1.price = 0 ∧
      (generate_signal {} s10fix [] "SPY" 100000 now10fix).2.daily_pnl =
        s10fix.daily_pnl - position.entry_price * (position.shares : ℚ) :=
  have hsell : (generate_signal {} s10fix [] "SPY" 100000 now10fix).1.signal_type =
      .SELL := by
    simp [generate_signal, generate_signal_body, s10fix, s3fix, s2fix, pos2fix,
      now10fix, get_trading_phase, sell_signal, lastCloseD, alErase, forceCloseUs,
      marketOpenUs, orCalcStartUs, orCalcEndUs, entryWindowEndUs, marketCloseUs]
    try norm_num
  ⟨hsell, c10_sell_on_empty_frame {} s10fix "SPY" 100000 now10fix hsell⟩

/-! ### Risk-manager lemmas -/

/-- Helper: `a ≤ qmax a b`. -/
theorem le_qmax_left (a b : ℚ) : a ≤ qmax a b := by
  unfold qmax
  split_ifs with h
  · exact h
  · exact le_refl a

/-- Helper: `b ≤ qmax a b`. -/
theorem le_qmax_right (a b : ℚ) : b ≤ qmax a b := by
  unfold qmax
  split_ifs with h
  · exact le_refl b
  · linarith

/-- Helper: equity tracking does not change the limits. -/
theorem update_equity_tracking_limits (s : RMState) (e : ℚ) (d : ℕ) :
    (update_equity_tracking s e d).limits = s.limits := by
  unfold update_equity_tracking ratchetPeak rollWeekly rollDaily
  split_ifs <;> rfl

/-- Helper: equity tracking does not change the kill switch. -/
theorem update_equity_tracking_kill (s : RMState) (e : ℚ) (d : ℕ) :
    (update_equity_tracking s e d).kill_switch_active = s.kill_switch_active := by
  unfold update_equity_tracking ratchetPeak rollWeekly rollDaily
  split_ifs <;> rfl

/-- Helper: equity tracking ratchets the peak to `qmax peak equity`. -/
theorem update_equity_tracking_peak (s : RMState) (e : ℚ) (d : ℕ) :
    (update_equity_tracking s e d).peak_equity = qmax s.peak_equity e := by
  unfold update_equity_tracking ratchetPeak rollWeekly rollDaily qmax
  split_ifs <;> first | rfl | (simp_all; linarith)

/-- Helper: the latch changes only the kill switch. -/
theorem applyLatch_limits (s : RMState) (v : Option BlockedReason) :
    (applyLatch s v).limits = s.limits := by
  unfold applyLatch
  split_ifs <;> rfl

/-- Helper: the latch does not change the peak. -/
theorem applyLatch_peak (s : RMState) (v : Option BlockedReason) :
    (applyLatch s v).peak_equity = s.peak_equity := by
  unfold applyLatch
  split_ifs <;> rfl

/-- Helper: the latch never clears an active kill switch. -/
theorem applyLatch_kill (s : RMState) (v : Option BlockedReason)
    (h : s.kill_switch_active = true) : (applyLatch s v).kill_switch_active = true := by
  unfold applyLatch
  split_ifs <;> simp [h]

/-- Helper: `get_risk_status` does not change the limits. -/
theorem get_risk_status_limits (s : RMState) (a : Account) (pos : List Position)
    (d : ℕ) : (get_risk_status s a pos d).2.limits = s.limits := by
  unfold get_risk_status
  rw [applyLatch_limits, update_equity_tracking_limits]

/-- Helper: the successor peak after `get_risk_status`. -/
theorem get_risk_status_peak (s : RMState) (a : Account) (pos : List Position)
    (d : ℕ) :
    (get_risk_status s a pos d).2.peak_equity = qmax s.peak_equity a.equity := by
  unfold get_risk_status
  rw [applyLatch_peak, update_equity_tracking_peak]

/-- Helper: the drawdown snapshot is `(peak' − equity)/peak'` against the
freshly ratcheted peak, guarded to 0 when that peak is not positive. -/
theorem get_risk_status_dd (s : RMState) (a : Account) (pos : List Position)
    (d : ℕ) :
    (get_risk_status s a pos d).1.current_drawdown_pct =
      if 0 < qmax s.peak_equity a.equity then
        (qmax s.peak_equity a.equity - a.equity) / qmax s.peak_equity a.equity
      else 0 := by
  unfold get_risk_status
  simp [update_equity_tracking_peak]

set_option maxHeartbeats 1600000 in
/-- C5: the `get_risk_status` blocking cascade is first-match-wins in the
order kill-switch > daily loss > weekly loss > max drawdown > position count
> allocation; a drawdown block also latches the kill switch in the successor
state; with no condition tripped, trading is allowed with no blocked reason;
and `get_risk_status` never clears an active kill switch (only
`reset_kill_switch` does). -/
theorem c5_blocking_cascade (s : RMState) (account : Account)
    (positions : List Position) (today : ℕ) :
    (s.kill_switch_active = true →
      (get_risk_status s account positions today).1.blocked_reason =
        some .killSwitch) ∧
    (s.kill_switch_active = false →
      (get_risk_status s account positions today).1.daily_pnl_pct ≤
          -s.limits.max_daily_loss_pct →
      (get_risk_status s account positions today).1.blocked_reason =
        some .dailyLoss) ∧
    (s.kill_switch_active = false →
      ¬(get_risk_status s account positions today).1.daily_pnl_pct ≤
          -s.limits.max_daily_loss_pct →
      (get_risk_status s account positions today).1.weekly_pnl_pct ≤
          -s.limits.max_weekly_loss_pct →
      (get_risk_status s account positions today).1.blocked_reason =
        some .weeklyLoss) ∧
    (s.kill_switch_active = false →
      ¬(get_risk_status s account positions today).1.daily_pnl_pct ≤
          -s.limits.max_daily_loss_pct →
      ¬(get_risk_status s account positions today).1.weekly_pnl_pct ≤
          -s.limits.max_weekly_loss_pct →
      s.limits.max_drawdown_pct ≤
          (get_risk_status s account positions today).1.current_drawdown_pct →
      (get_risk_status s account positions today).1.blocked_reason =
          some .maxDrawdown ∧
        (get_risk_status s account positions today).2.kill_switch_active = true) ∧
    (s.kill_switch_active = false →
      ¬(get_risk_status s account positions today).1.daily_pnl_pct ≤
          -s.limits.max_daily_loss_pct →
      ¬(get_risk_status s account positions today).1.weekly_pnl_pct ≤
          -s.limits.max_weekly_loss_pct →
      ¬s.limits.max_drawdown_pct ≤
          (get_risk_status s account positions today).1.current_drawdown_pct →
      s.limits.max_positions ≤ positions.length →
      (get_risk_status s account positions today).1.blocked_reason =
        some .maxPositions) ∧
    (s.kill_switch_active = false →
      ¬(get_risk_status s account positions today).1.daily_pnl_pct ≤
          -s.limits.max_daily_loss_pct →
      ¬(get_risk_status s account positions today).1.weekly_pnl_pct ≤
          -s.limits.max_weekly_loss_pct →
      ¬s.limits.max_drawdown_pct ≤
          (get_risk_status s account positions today).1.current_drawdown_pct →
      ¬s.limits.max_positions ≤ positions.length →
      s.limits.max_portfolio_pct ≤
          (get_risk_status s account positions today).1.portfolio_allocation_pct →
      (get_risk_status s account positions today).1.blocked_reason =
        some .maxAllocation) ∧
    (s.kill_switch_active = false →
      ¬(get_risk_status s account positions today).1.daily_pnl_pct ≤
          -s.limits.max_daily_loss_pct →
      ¬(get_risk_status s account positions today).1.weekly_pnl_pct ≤
          -s.limits.max_weekly_loss_pct →
      ¬s.limits.max_drawdown_pct ≤
          (get_risk_status s account positions today).1.current_drawdown_pct →
      ¬s.limits.max_positions ≤ positions.length →
      ¬s.limits.max_portfolio_pct ≤
          (get_risk_status s account positions today).1.portfolio_allocation_pct →
      (get_risk_status s account positions today).1.can_trade = true ∧
        (get_risk_status s account positions today).1.blocked_reason = none) ∧
    (s.kill_switch_active = true →
      (get_risk_status s account positions today).2.kill_switch_active = true) := by
  unfold get_risk_status
  simp only [update_equity_tracking_limits, update_equity_tracking_kill]
  refine ⟨?_, ?_, ?_, ?_, ?_, ?_, ?_, ?_⟩ <;> intros <;>
    simp_all [cascadeVerdict, applyLatch, update_equity_tracking_kill] <;>
    try (split_ifs <;> try simp_all <;> try linarith)

/-- C5 witness: against baselines of 100000, an equity of 80000 trips the
daily (−20% ≤ −5%), weekly (−20% ≤ −10%) and drawdown (20% ≥ 15%) limits at
once; the reported reason is the highest-precedence one, the daily loss. -/
theorem c5_witness :
    rm5fix.kill_switch_active = false ∧
    (get_risk_status rm5fix acct5fix [] 3).1.daily_pnl_pct ≤
      -rm5fix.limits.max_daily_loss_pct ∧
    (get_risk_status rm5fix acct5fix [] 3).1.weekly_pnl_pct ≤
      -rm5fix.limits.max_weekly_loss_pct ∧
    rm5fix.limits.max_drawdown_pct ≤
      (get_risk_status rm5fix acct5fix [] 3).1.current_drawdown_pct ∧
    (get_risk_status rm5fix acct5fix [] 3).1.blocked_reason = some .dailyLoss :=
  have hd : (get_risk_status rm5fix acct5fix [] 3).1.daily_pnl_pct ≤
      -rm5fix.limits.max_daily_loss_pct := by
    simp [get_risk_status, update_equity_tracking, rollDaily, rollWeekly, ratchetPeak,
      rm5fix, acct5fix]
    norm_num
  have hw : (get_risk_status rm5fix acct5fix [] 3).1.weekly_pnl_pct ≤
      -rm5fix.limits.max_weekly_loss_pct := by
    simp [get_risk_status, update_equity_tracking, rollDaily, rollWeekly, ratchetPeak,
      rm5fix, acct5fix]
    norm_num
  have hdd : rm5fix.limits.max_drawdown_pct ≤
      (get_risk_status rm5fix acct5fix [] 3).1.current_drawdown_pct := by
    simp [get_risk_status, update_equity_tracking, rollDaily, rollWeekly, ratchetPeak,
      rm5fix, acct5fix]
    norm_num
  ⟨rfl, hd, hw, hdd, (c5_blocking_cascade rm5fix acct5fix [] 3).2.1 rfl hd⟩

/-- C8: `validate_signal` rejects with size 0 whenever the recomputed risk
status blocks trading, reporting that blocked reason; passes every non-BUY
signal through with `(True, None, 0)` when trading is allowed; rejects a BUY
whose symbol already has a position; and otherwise sizes the BUY to
`min(portfolio_value × max_position_size_pct, buying_power) × strength`,
rejecting with size 0 when that product is below one dollar. -/
theorem c8_validate_signal (s : RMState) (signal : Signal) (account : Account)
    (positions : List Position) (current_price : ℚ) (today : ℕ) :
    ((get_risk_status s account positions today).1.can_trade = false →
      (validate_signal s signal account positions current_price today).1 =
        (false,
          ((get_risk_status s account positions today).1.blocked_reason).map .blocked,
          0)) ∧
    ((get_risk_status s account positions today).1.can_trade = true →
      signal.signal_type ≠ .BUY →
      (validate_signal s signal account positions current_price today).1 =
        (true, none, 0)) ∧
    ((get_risk_status s account positions today).1.can_trade = true →
      signal.signal_type = .BUY →
      (∃ pos ∈ positions, pos.symbol = signal.symbol) →
      (validate_signal s signal account positions current_price today).1 =
        (false, some (.alreadyInPosition signal.symbol), 0)) ∧
    ((get_risk_status s account positions today).1.can_trade = true →
      signal.signal_type = .BUY →
      (∀ pos ∈ positions, pos.symbol ≠ signal.symbol) →
      (validate_signal s signal account positions current_price today).1 =
        (if qmin (account.portfolio_value * s.limits.max_position_size_pct)
              account.buying_power * signal.strength < 1 then
          (false, some .positionTooSmall, 0)
        else
          (true, none,
            qmin (account.portfolio_value * s.limits.max_position_size_pct)
              account.buying_power * signal.strength))) := by
  unfold validate_signal
  simp only [get_risk_status_limits]
  split_ifs with h1 h2 h3 h4 <;> simp_all [List.find?_isSome]

/-- C8 witness: a healthy account, a BUY at strength 1 and no open
positions size to `min(100000 × 5%, 50000) × 1 = 5000`. -/
theorem c8_witness :
    (get_risk_status rm5fix acct8fix [] 3).1.can_trade = true ∧
    sig8fix.signal_type = .BUY ∧
    (validate_signal rm5fix sig8fix acct8fix [] 100 3).1 =
      (if qmin (acct8fix.portfolio_value * rm5fix.limits.max_position_size_pct)
            acct8fix.buying_power * sig8fix.strength < 1 then
        (false, some .positionTooSmall, 0)
      else
        (true, none,
          qmin (acct8fix.portfolio_value * rm5fix.limits.max_position_size_pct)
            acct8fix.buying_power * sig8fix.strength)) :=
  have hct : (get_risk_status rm5fix acct8fix [] 3).1.can_trade = true := by
    simp [get_risk_status, update_equity_tracking, rollDaily, rollWeekly, ratchetPeak,
      applyLatch, cascadeVerdict, rm5fix, acct8fix]
    norm_num
  ⟨hct, rfl,
    (c8_validate_signal rm5fix sig8fix acct8fix [] 100 3).2.2.2 hct rfl
      (by simp)⟩

/-- C6 counterexample: from a fresh manager, the equity sequence 100 then
−50 (same day) produces a second `RiskStatus` with
`current_drawdown_pct = 3/2`, outside the claimed `[0, 1]`. -/
theorem c6_counterexample :
    ((riskSteps {} [(100, 0), (-50, 0)]).map
      (fun pr => pr.1.current_drawdown_pct)) = [0, 3 / 2] ∧
    ¬((3 : ℚ) / 2 ≤ 1) := by
  have h0 : RMState.peak_equity {} = 0 := rfl
  have e1 := get_risk_status_dd ({} : RMState) { equity := 100 } [] 0
  have e2 := get_risk_status_peak ({} : RMState) { equity := 100 } [] 0
  have e3 := get_risk_status_dd
    ((get_risk_status ({} : RMState) { equity := 100 } [] 0).2) { equity := -50 } [] 0
  constructor
  · show [(get_risk_status ({} : RMState) { equity := 100 } [] 0).1.current_drawdown_pct,
      (get_risk_status ((get_risk_status ({} : RMState) { equity := 100 } [] 0).2)
        { equity := -50 } [] 0).1.current_drawdown_pct] = [0, 3 / 2]
    rw [e1, e3, e2, h0]
    norm_num [qmax]
  · norm_num

/-- C6 amended: starting from any manager state with a non-negative peak,
the tracked peak is monotonically non-decreasing along ANY observation
sequence, and every produced `RiskStatus` has
`current_drawdown_pct = (peak′ − equity)/peak′` against the freshly
ratcheted peak (the expression and the code's guarded value coincide, both
being 0 at a zero peak) — both unconditionally; the drawdown lies in
`[0, 1]` provided every observed equity is non-negative — with negative
equity it can exceed 1. -/
theorem c6_peak_monotone_dd_bounds (s : RMState) (obs : List (ℚ × ℕ))
    (hpk : 0 ≤ s.peak_equity) :
    List.Chain' (· ≤ ·)
      (s.peak_equity :: (riskSteps s obs).map (fun pr => pr.2.peak_equity)) ∧
    (∀ i (h1 : i < (riskSteps s obs).length) (h2 : i < obs.length),
      ((riskSteps s obs).get ⟨i, h1⟩).1.current_drawdown_pct =
        (((riskSteps s obs).get ⟨i, h1⟩).2.peak_equity - (obs.get ⟨i, h2⟩).1) /
          ((riskSteps s obs).get ⟨i, h1⟩).2.peak_equity) ∧
    ((∀ o ∈ obs, 0 ≤ o.1) →
      ∀ pr ∈ riskSteps s obs,
        0 ≤ pr.1.current_drawdown_pct ∧ pr.1.current_drawdown_pct ≤ 1) := by
  induction obs generalizing s with
  | nil =>
    refine ⟨?_, ?_, ?_⟩ <;> simp [riskSteps]
  | cons o rest ih =>
    obtain ⟨e, d⟩ := o
    have hpeak : (get_risk_status s { equity := e } [] d).2.peak_equity =
        qmax s.peak_equity e := get_risk_status_peak s { equity := e } [] d
    have hle : s.peak_equity ≤ (get_risk_status s { equity := e } [] d).2.peak_equity := by
      rw [hpeak]; exact le_qmax_left _ _
    have hpk' : 0 ≤ (get_risk_status s { equity := e } [] d).2.peak_equity :=
      le_trans hpk hle
    obtain ⟨ihchain, iheq, ihdd⟩ :=
      ih (get_risk_status s { equity := e } [] d).2 hpk'
    have hdd : (get_risk_status s { equity := e } [] d).1.current_drawdown_pct =
        if 0 < qmax s.peak_equity e then
          (qmax s.peak_equity e - e) / qmax s.peak_equity e
        else 0 := get_risk_status_dd s { equity := e } [] d
    have hsteps : riskSteps s ((e, d) :: rest) =
        get_risk_status s { equity := e } [] d ::
          riskSteps (get_risk_status s { equity := e } [] d).2 rest := rfl
    refine ⟨?_, ?_, ?_⟩
    · rw [hsteps, List.map_cons, List.chain'_cons]
      exact ⟨hle, ihchain⟩
    · intro i h1 h2
      match i with
      | 0 =>
        simp only [hsteps, List.get]
        rw [hdd, hpeak]
        split_ifs with hpos
        · simp
        · have hz : qmax s.peak_equity e = 0 := le_antisymm (not_lt.mp hpos)
            (le_trans hpk (le_qmax_left _ _))
          rw [hz, div_zero]
      | Nat.succ j =>
        have h1' : j < (riskSteps (get_risk_status s { equity := e } [] d).2 rest).length := by
          rw [hsteps] at h1
          simpa using h1
        have h2' : j < rest.length := by simpa using h2
        have := iheq j h1' h2'
        simp only [hsteps, List.get] at h1 ⊢
        exact this
    · intro hnn pr hpr
      have he : (0 : ℚ) ≤ e := by simpa using hnn (e, d) (by simp)
      have hrest : ∀ x ∈ rest, (0 : ℚ) ≤ x.1 := fun x hx => hnn x (by simp [hx])
      rw [hsteps, List.mem_cons] at hpr
      rcases hpr with hpr | hpr
      · subst hpr
        rw [hdd]
        split_ifs with hpos
        · have hnum : (0 : ℚ) ≤ qmax s.peak_equity e - e := by
            have := le_qmax_right s.peak_equity e
            linarith
          constructor
          · exact div_nonneg hnum (le_of_lt hpos)
          · rw [div_le_one hpos]
            linarith
        · norm_num
      · exact ihdd hrest pr hpr

/-- C6 witness: the amended statement at the concrete two-day sequence
100000 then 80000 from a fresh manager: peaks `0 ≤ 100000 ≤ 100000` and the
second drawdown is `1/5 ∈ [0,1]`. -/
theorem c6_witness :
    ((0 : ℚ) ≤ RMState.peak_equity {}) ∧
    (∀ o ∈ [((100000 : ℚ), 0), (80000, 1)], (0 : ℚ) ≤ o.1) ∧
    List.Chain' (· ≤ ·)
      (RMState.peak_equity {} ::
        (riskSteps {} [((100000 : ℚ), 0), (80000, 1)]).map
          (fun pr => pr.2.peak_equity)) ∧
    ∀ pr ∈ riskSteps {} [((100000 : ℚ), 0), (80000, 1)],
      0 ≤ pr.1.current_drawdown_pct ∧ pr.1.current_drawdown_pct ≤ 1 :=
  have hnn : ∀ o ∈ [((100000 : ℚ), 0), (80000, 1)], (0 : ℚ) ≤ o.1 := by
    intro o ho
    fin_cases ho <;> norm_num
  have h := c6_peak_monotone_dd_bounds {} [((100000 : ℚ), 0), (80000, 1)]
    (le_refl 0)
  ⟨le_refl 0, hnn, h.1, h.2.2 hnn⟩

/-! ### Backtest-engine lemmas -/

/-- Helper: `qmax a a = a`. -/
theorem qmax_self (a : ℚ) : qmax a a = a := by
  unfold qmax
  rw [if_pos (le_refl a)]

/-- Helper: a step on a bar with no open position and fewer than 20 bars of
history only appends the mark-to-market equity point. -/
theorem engineStep_warmup (e : EngineParams) (sig : List Bar → SignalType)
    (a b c : ℚ) (data : List Bar) (st : LoopState) (i : ℕ)
    (hpos : st.position = none) (hi : i + 1 < 20) :
    engineStep e sig a b c data st i =
      { st with equity_curve :=
          st.equity_curve ++ [((data.getD i default).ts, st.capital)] } := by
  unfold engineStep signalPhase
  rw [hpos]
  simp [hi]

/-- Helper: the first `n ≤ 19` iterations of the loop never trade: capital
is untouched, no position opens, and the equity curve records the initial
capital at each visited bar. -/
theorem foldl_warmup (e : EngineParams) (sig : List Bar → SignalType)
    (a b c : ℚ) (data : List Bar) (n : ℕ) (hn : n ≤ 19) :
    (List.range n).foldl (engineStep e sig a b c data)
        { capital := e.initial_capital } =
      { capital := e.initial_capital, position := none, trades := [],
        equity_curve :=
          (List.range n).map (fun i => ((data.getD i default).ts, e.initial_capital)) } := by
  induction n with
  | zero => rfl
  | succ m ih =>
    rw [List.range_succ, List.foldl_append, ih (by omega)]
    rw [List.foldl_cons, List.foldl_nil]
    rw [engineStep_warmup e sig a b c data _ m rfl (by omega)]
    simp [List.range_succ]

/-- Helper: reading a list by positions equals mapping over it. -/
theorem range_map_getD {α β : Type} (l : List α) (d : α) (f : α → β) :
    (List.range l.length).map (fun i => f (l.getD i d)) = l.map f := by
  induction l with
  | nil => rfl
  | cons x t ih =>
    rw [List.length_cons, List.range_succ_eq_map, List.map_cons, List.map_map]
    simp only [Function.comp_def, List.getD_cons_zero, List.getD_cons_succ]
    rw [ih, List.map_cons]

/-- Helper: the loop on a series shorter than 20 bars never trades. -/
theorem runLoop_short (e : EngineParams) (sig : List Bar → SignalType)
    (a b c : ℚ) (data : List Bar) (hlen : data.length < 20) :
    runLoop e sig a b c data =
      { capital := e.initial_capital, position := none, trades := [],
        equity_curve := data.map (fun bar => (bar.ts, e.initial_capital)) } := by
  unfold runLoop
  rw [foldl_warmup e sig a b c data data.length (by omega)]
  rw [range_map_getD data default (fun bar => (bar.ts, e.initial_capital))]

/-- Helper: the last element of a nonempty replicate. -/
theorem getLastD_replicate {α : Type} (n : ℕ) (a d : α) (hn : n ≠ 0) :
    (List.replicate n a).getLastD d = a := by
  match n with
  | 0 => exact absurd rfl hn
  | Nat.succ m => rw [List.replicate_succ', List.getLastD_concat]

/-- Helper: scanning `qmax` over a constant list stays constant. -/
theorem scanl_qmax_replicate (n : ℕ) (a : ℚ) :
    List.scanl qmax a (List.replicate n a) = List.replicate (n + 1) a := by
  induction n with
  | zero => rfl
  | succ m ih =>
    rw [List.replicate_succ, List.scanl_cons, qmax_self, ih]
    rfl

/-- Helper: zipping two equal-length constant lists is constant. -/
theorem zipWith_replicate_same {α β γ : Type} (f : α → β → γ) (n : ℕ) (a : α)
    (b : β) :
    List.zipWith f (List.replicate n a) (List.replicate n b) =
      List.replicate n (f a b) := by
  induction n with
  | zero => rfl
  | succ m ih => simp [List.replicate_succ, ih]

/-- Helper: folding `qmax` over copies of the seed returns the seed. -/
theorem foldl_qmax_replicate (n : ℕ) (a : ℚ) :
    List.foldl qmax a (List.replicate n a) = a := by
  induction n with
  | zero => rfl
  | succ m ih => rw [List.replicate_succ, List.foldl_cons, qmax_self, ih]

/-- Helper: `maxQ` of an all-zero list is zero. -/
theorem maxQ_replicate_zero (n : ℕ) : maxQ (List.replicate n 0) = 0 := by
  unfold maxQ
  match n with
  | 0 => rfl
  | Nat.succ m =>
    rw [List.replicate_succ, List.headD_cons, List.foldl_cons, qmax_self]
    exact foldl_qmax_replicate m 0

/-- Helper: percentage changes of a constant series are all zero. -/
theorem pctChanges_replicate (n : ℕ) (a : ℚ) :
    pctChanges (List.replicate n a) = List.replicate (n - 1) 0 := by
  induction n with
  | zero => rfl
  | succ m ih =>
    match m, ih with
    | 0, _ => rfl
    | Nat.succ k, ih =>
      rw [List.replicate_succ, List.replicate_succ, pctChanges, ← List.replicate_succ,
        ih]
      simp [List.replicate_succ]

/-- Helper: the sample variance of an all-zero list is zero. -/
theorem svarQ_replicate_zero (n : ℕ) : svarQ (List.replicate n 0) = 0 := by
  unfold svarQ meanQ
  split_ifs with h
  · rfl
  · simp

/-- Helper: metrics of a run with no trades over a constant equity curve at
the initial capital: every metric is zero except `profit_factor`, which is
the float `inf`. -/
theorem calculate_metrics_const (e : EngineParams) (nm sym : String)
    (t0 t1 : ℕ) (curve : List (ℕ × ℚ)) (hne : curve ≠ [])
    (hconst : curve.map (fun pt => pt.2) =
      List.replicate curve.length e.initial_capital) :
    calculate_metrics e nm sym t0 t1 [] curve =
      { strategy_name := nm, symbol := sym, start_ts := t0, end_ts := t1,
        initial_capital := e.initial_capital, final_capital := e.initial_capital,
        total_return := 0, total_return_pct := 0, num_trades := 0,
        winning_trades := 0, losing_trades := 0, win_rate := 0, avg_win := 0,
        avg_loss := 0, profit_factor := .inf, max_drawdown := 0,
        max_drawdown_pct := 0, sharpe := .zero, trades := [],
        equity_curve := curve } := by
  have hlen : curve.length ≠ 0 := fun h => hne (List.eq_nil_of_length_eq_zero h)
  have hhead : (List.replicate curve.length e.initial_capital).headD 0 =
      e.initial_capital := by
    match hl : curve.length with
    | 0 => exact absurd hl hlen
    | Nat.succ k => rw [List.replicate_succ, List.headD_cons]
  unfold calculate_metrics
  rw [if_neg hne]
  simp only []
  simp only [hconst]
  rw [hhead, getLastD_replicate curve.length e.initial_capital 0 hlen,
    scanl_qmax_replicate, pctChanges_replicate, svarQ_replicate_zero,
    List.replicate_succ, List.drop_one, List.tail_cons,
    zipWith_replicate_same, zipWith_replicate_same]
  simp [maxQ_replicate_zero, qabs, sub_self, zero_div]

/-- Helper: indexing a replicate within bounds. -/
theorem getD_replicate {α : Type} (n i : ℕ) (a d : α) (hi : i < n) :
    (List.replicate n a).getD i d = a := by
  induction n generalizing i with
  | zero => omega
  | succ m ih =>
    rw [List.replicate_succ]
    match i with
    | 0 => rfl
    | Nat.succ j =>
      rw [List.getD_cons_succ]
      exact ih j (by omega)

/-- Helper: the last element of a nonempty replicate. -/
theorem getLast?_replicate {α : Type} (n : ℕ) (a : α) (hn : n ≠ 0) :
    (List.replicate n a).getLast? = some a := by
  match n with
  | 0 => exact absurd rfl hn
  | Nat.succ m => rw [List.replicate_succ', List.getLast?_concat]

/-- Helper: closing a trade does not touch the equity curve. -/
theorem closeTrade_curve (e : EngineParams) (st : LoopState) (pos : BTPosition)
    (ep : ℚ) (ts : ℕ) (r : String) :
    (closeTrade e st pos ep ts r).equity_curve = st.equity_curve := rfl

/-- Helper: the signal phase does not touch the equity curve. -/
theorem signalPhase_curve (e : EngineParams) (sig : List Bar → SignalType)
    (a b c : ℚ) (data : List Bar) (st : LoopState) (i : ℕ) :
    (signalPhase e sig a b c data st i).equity_curve = st.equity_curve := by
  unfold signalPhase closeTrade
  repeat' split
  all_goals rfl

/-- Helper: every loop iteration appends exactly one equity point; closing
or opening a position never touches the curve. -/
theorem engineStep_curve_len (e : EngineParams) (sig : List Bar → SignalType)
    (a b c : ℚ) (data : List Bar) (st : LoopState) (i : ℕ) :
    (engineStep e sig a b c data st i).equity_curve.length =
      st.equity_curve.length + 1 := by
  unfold engineStep
  rcases hp : st.position with _ | pos <;> simp only [hp] <;> repeat' split
  all_goals simp [closeTrade_curve, signalPhase_curve]

/-- Helper: the loop's equity curve has one point per processed bar. -/
theorem foldl_curve_len (e : EngineParams) (sig : List Bar → SignalType)
    (a b c : ℚ) (data : List Bar) (n : ℕ) (st : LoopState) :
    ((List.range n).foldl (engineStep e sig a b c data) st).equity_curve.length =
      st.equity_curve.length + n := by
  induction n generalizing st with
  | zero => rfl
  | succ m ih =>
    rw [List.range_succ, List.foldl_append, List.foldl_cons, List.foldl_nil,
      engineStep_curve_len, ih]
    omega

/-- Helper: `runLoop` records one equity point per bar. -/
theorem runLoop_curve_len (e : EngineParams) (sig : List Bar → SignalType)
    (a b c : ℚ) (data : List Bar) :
    (runLoop e sig a b c data).equity_curve.length = data.length := by
  unfold runLoop
  rw [foldl_curve_len]
  simp

/-- Helper: with a nonempty curve, `_calculate_metrics` returns its trade
list unchanged. -/
theorem calculate_metrics_trades (e : EngineParams) (nm sym : String)
    (t0 t1 : ℕ) (trades : List BacktestTrade) (curve : List (ℕ × ℚ))
    (hne : curve ≠ []) :
    (calculate_metrics e nm sym t0 t1 trades curve).trades = trades := by
  unfold calculate_metrics
  rw [if_neg hne]

/-- C1 counterexample: on a 1-bar series (shorter than 20 bars) the engine
returns `num_trades = 0` but `profit_factor = inf` — the float infinity of
`total_wins/total_losses if total_losses > 0 else float("inf")` — not the
zero default the claim asserts for every metric. -/
theorem c1_counterexample :
    (run {} (fun l => SignalType.HOLD) "MA" "SPY" [c1bar] (1 / 20) (1 / 50)
        (1 / 20)).map (fun r => (r.num_trades, r.profit_factor)) =
      Except.ok (0, PFVal.inf) ∧ PFVal.inf ≠ PFVal.fin 0 := by
  constructor
  · unfold run
    rw [runLoop_short _ _ _ _ _ [c1bar] (by norm_num)]
    show Except.map (fun r => (r.num_trades, r.profit_factor))
        (Except.ok (calculate_metrics {} "MA" "SPY" c1bar.ts
          ([c1bar].getLastD default).ts []
          ([c1bar].map (fun bar => (bar.ts, EngineParams.initial_capital {}))))) =
      Except.ok (0, PFVal.inf)
    rw [calculate_metrics_const {} "MA" "SPY" c1bar.ts
      ([c1bar].getLastD default).ts _ (by simp) (by simp)]
    rfl
  · simp

/-- C1 amended: for every bar series shorter than 20 bars, `run` raises no
exception when the series is nonempty and returns `num_trades = 0` with
`win_rate`, `avg_win`, `avg_loss`, `max_drawdown`, `max_drawdown_pct`,
`sharpe_ratio` and `total_return` at their zero defaults but
`profit_factor = +∞` (there are no losing trades); on the empty series
`data.index[0]` raises `IndexError` instead of returning a result.  The
positivity hypothesis on the initial capital mirrors the float code, where
a zero initial capital would make `max_drawdown_pct` a `NaN`. -/
theorem c1_short_series (e : EngineParams) (sig : List Bar → SignalType)
    (nm sym : String) (data : List Bar) (a b c : ℚ)
    (hcap : 0 < e.initial_capital) (hlen : data.length < 20) :
    run e sig nm sym data a b c =
      if data = [] then Except.error "IndexError: index 0 is out of bounds"
      else
        Except.ok
          { strategy_name := nm, symbol := sym,
            start_ts := (data.headD default).ts,
            end_ts := (data.getLastD default).ts,
            initial_capital := e.initial_capital,
            final_capital := e.initial_capital, total_return := 0,
            total_return_pct := 0, num_trades := 0, winning_trades := 0,
            losing_trades := 0, win_rate := 0, avg_win := 0, avg_loss := 0,
            profit_factor := .inf, max_drawdown := 0, max_drawdown_pct := 0,
            sharpe := .zero, trades := [],
            equity_curve := data.map (fun bar => (bar.ts, e.initial_capital)) } := by
  unfold run
  rw [runLoop_short e sig a b c data hlen]
  cases data with
  | nil => rfl
  | cons d0 rest =>
    rw [if_neg (by simp)]
    show Except.ok (calculate_metrics e nm sym d0.ts
        ((d0 :: rest).getLastD default).ts []
        ((d0 :: rest).map (fun bar => (bar.ts, e.initial_capital)))) = _
    rw [calculate_metrics_const e nm sym d0.ts ((d0 :: rest).getLastD default).ts
      _ (by simp) (by rw [List.map_map]; simp [Function.comp_def, List.replicate_succ])]
    rfl

/-- C1 witness: the amended statement applied to the concrete 1-bar series
with the default engine parameters. -/
theorem c1_witness :
    (0 : ℚ) < EngineParams.initial_capital {} ∧ [c1bar].length < 20 ∧
    run {} (fun l => SignalType.HOLD) "MA" "SPY" [c1bar] (1 / 20) (1 / 50)
        (1 / 20) =
      if [c1bar] = [] then Except.error "IndexError: index 0 is out of bounds"
      else
        Except.ok
          { strategy_name := "MA", symbol := "SPY",
            start_ts := ([c1bar].headD default).ts,
            end_ts := ([c1bar].getLastD default).ts,
            initial_capital := EngineParams.initial_capital {},
            final_capital := EngineParams.initial_capital {}, total_return := 0,
            total_return_pct := 0, num_trades := 0, winning_trades := 0,
            losing_trades := 0, win_rate := 0, avg_win := 0, avg_loss := 0,
            profit_factor := .inf, max_drawdown := 0, max_drawdown_pct := 0,
            sharpe := .zero, trades := [],
            equity_curve :=
              [c1bar].map (fun bar => (bar.ts, EngineParams.initial_capital {})) } :=
  ⟨by norm_num, by norm_num,
    c1_short_series {} (fun l => SignalType.HOLD) "MA" "SPY" [c1bar] (1 / 20)
      (1 / 50) (1 / 20) (by norm_num) (by norm_num)⟩

/-- C7: whenever the loop leaves a position open after the last bar, `run`
closes it at the final bar's close with no slippage and no commission —
the exit price is exactly the close, the pnl is
`(close − entry) × quantity` with no commission term — and appends exactly
one trade with `exit_reason = "end_of_data"`. -/
theorem c7_end_of_data_close (e : EngineParams) (sig : List Bar → SignalType)
    (nm sym : String) (data : List Bar) (a b c : ℚ) (pos : BTPosition)
    (lb : Bar) (hpos : (runLoop e sig a b c data).position = some pos)
    (hlast : data.getLast? = some lb) :
    (run e sig nm sym data a b c).map (fun r => r.trades) =
      Except.ok ((runLoop e sig a b c data).trades ++
        [{ entry_ts := pos.entry_ts, entry_price := pos.entry_price,
           exit_ts := lb.ts, exit_price := lb.close, quantity := pos.quantity,
           side := "long", pnl := (lb.close - pos.entry_price) * pos.quantity,
           pnl_pct := (lb.close - pos.entry_price) * pos.quantity /
             (pos.entry_price * pos.quantity),
           exit_reason := "end_of_data" }]) := by
  have hne : data ≠ [] := by
    intro h
    rw [h] at hlast
    simp at hlast
  have hLD : data.getLastD default = lb := by
    rw [List.getLastD_eq_getLast?, hlast]
    rfl
  have hcurve : (runLoop e sig a b c data).equity_curve ≠ [] := by
    intro h
    have := runLoop_curve_len e sig a b c data
    rw [h] at this
    simp at this
    exact hne (List.eq_nil_of_length_eq_zero this.symm)
  unfold run
  simp only []
  rw [hpos]
  cases data with
  | nil => exact absurd rfl hne
  | cons d0 rest =>
    simp only [Except.map]
    rw [calculate_metrics_trades _ _ _ _ _ _ _ hcurve, hLD]

/-- C7 witness: 20 flat bars, a stub strategy that buys on the 20th bar, no
slippage or commission: the loop ends holding 50 shares at entry 100 and
`run` appends the end-of-data trade at exit price 100 with zero pnl. -/
theorem c7_witness :
    (runLoop c7e c7sig (1 / 20) (1 / 50) (1 / 20) c7bars).position = some c7pos ∧
    c7bars.getLast? = some c7bar ∧
    (run c7e c7sig "ORB" "SPY" c7bars (1 / 20) (1 / 50) (1 / 20)).map
        (fun r => r.trades) =
      Except.ok ((runLoop c7e c7sig (1 / 20) (1 / 50) (1 / 20) c7bars).trades ++
        [{ entry_ts := c7pos.entry_ts, entry_price := c7pos.entry_price,
           exit_ts := c7bar.ts, exit_price := c7bar.close,
           quantity := c7pos.quantity, side := "long",
           pnl := (c7bar.close - c7pos.entry_price) * c7pos.quantity,
           pnl_pct := (c7bar.close - c7pos.entry_price) * c7pos.quantity /
             (c7pos.entry_price * c7pos.quantity),
           exit_reason := "end_of_data" }]) :=
  have hlast : c7bars.getLast? = some c7bar :=
    getLast?_replicate 20 c7bar (by norm_num)
  have hpos : (runLoop c7e c7sig (1 / 20) (1 / 50) (1 / 20) c7bars).position =
      some c7pos := by
    unfold runLoop
    have hl : c7bars.length = 20 := by simp [c7bars]
    rw [hl]
    rw [show (20 : ℕ) = 19 + 1 from rfl, List.range_succ, List.foldl_append,
      foldl_warmup c7e c7sig _ _ _ c7bars 19 (by omega), List.foldl_cons,
      List.foldl_nil]
    unfold engineStep
    have hrow : c7bars.getD 19 default = c7bar :=
      getD_replicate 20 19 c7bar default (by omega)
    rw [hrow]
    simp [c7sig, c7bars, c7e, c7pos, c7bar, signalPhase, List.take_replicate, hrow]
    norm_num
  ⟨hpos, hlast,
    c7_end_of_data_close c7e c7sig "ORB" "SPY" c7bars (1 / 20) (1 / 50) (1 / 20)
      c7pos c7bar hpos hlast⟩

end TradingBot
